import Mathlib

/-!
Shallow embedding of `modules/prediction/container/obstacles/obstacle.cc`
(the tracked-object entity of the prediction module): the data model, the
ingestion pipeline `Obstacle::Insert` with its helper setters, the damped
acceleration estimator, and the locked accessors.  Floating-point doubles
are modelled as real numbers; protobuf optional fields as `Option`; the
opaque Kalman-filter states as a type parameter `κ` that the entity stores
but never inspects.
-/

namespace ApolloPrediction

noncomputable section

/-- Obstacle type enum of the perception protobuf. -/
inductive ObstacleType where
  | UNKNOWN
  | UNKNOWN_MOVABLE
  | UNKNOWN_UNMOVABLE
  | PEDESTRIAN
  | BICYCLE
  | VEHICLE
  deriving DecidableEq

/-- Error code returned by the fallible setters (`SetId`, `SetType`). -/
inductive ErrorCode where
  | OK
  | PREDICTION_ERROR
  deriving DecidableEq

/-- A 3-d point message whose coordinates are each optional. -/
structure Point3D where
  x : Option ℝ
  y : Option ℝ
  z : Option ℝ

/-- A raw perception detection: every sub-field is independently optional. -/
structure PerceptionObstacle where
  id : Option Int
  type : Option ObstacleType
  timestamp : Option ℝ
  position : Option Point3D
  velocity : Option Point3D
  theta : Option ℝ

/-- One fully-derived kinematic snapshot.  `id = none` models the proto
field being unset (C++ `has_id()` false on a default-constructed Feature);
all numeric fields default to zero as protobuf numeric fields do. -/
structure Feature where
  id : Option Int
  timestamp : ℝ
  position_x : ℝ
  position_y : ℝ
  position_z : ℝ
  velocity_x : ℝ
  velocity_y : ℝ
  velocity_z : ℝ
  velocity_heading : ℝ
  speed : ℝ
  acc_x : ℝ
  acc_y : ℝ
  acc_z : ℝ
  acc : ℝ
  theta : ℝ

/-- The default-constructed (all-fields-unset) Feature. -/
def Feature.default : Feature :=
  ⟨none, 0, 0, 0, 0, 0, 0, 0, 0, 0, 0, 0, 0, 0, 0⟩

/-- The tracked-object entity.  `κ` is the opaque Kalman-filter state type
(`KalmanFilter<double,4,2,0>` in the source), stored but never inspected. -/
structure Obstacle (κ : Type) where
  id_ : Int
  type_ : ObstacleType
  feature_history : List Feature
  kf_motion_tracker : Option κ
  is_motion_tracker_enabled : Bool
  kf_lane_tracker_map : List (String × κ)

/-- The state built by the default constructor `Obstacle::Obstacle()`:
unbound id, `UNKNOWN_MOVABLE` type, empty history, motion tracker
disabled, empty lane-tracker map. -/
def Obstacle.fresh (κ : Type) : Obstacle κ :=
  ⟨-1, ObstacleType.UNKNOWN_MOVABLE, [], none, false, []⟩

/-- `Damp` from the anonymous namespace of obstacle.cc:
`1 / (1 + exp(1 / (fabs(x) + sigma)))`. -/
def Damp (x sigma : ℝ) : ℝ :=
  1 / (1 + Real.exp (1 / (|x| + sigma)))

/-- Modelled from the spec: the tolerant numeric comparator
(`apollo::common::math::DoubleCompare`) lives in `math_utils`, which is not
under src/; the spec requires "a tolerant numeric comparator (not raw >)".
Returns 0 when the two values are within `epsilon`, otherwise the sign of
`d1 - d2`. -/
def DoubleCompare (d1 d2 epsilon : ℝ) : Int :=
  if |d1 - d2| < epsilon then 0
  else if d2 < d1 then 1
  else -1

/-- The comparison tolerance the source's default-argument call
`DoubleCompare(curr_ts, prev_ts)` uses. -/
def kEpsilon : ℝ := 1e-6

/-- Modelled from the spec: `apollo::common::math::Clamp` is in
`math_utils`, not under src/; the spec writes
`accel = clamp(raw * damp, min_acc, max_acc)`. -/
def Clamp (value lo hi : ℝ) : ℝ :=
  if value < lo then lo
  else if hi < value then hi
  else value

/-- `std::hypot`, exact over the reals. -/
def hypot (a b : ℝ) : ℝ := Real.sqrt (a ^ 2 + b ^ 2)

/-- `std::atan2` over the reals (planar heading). -/
def atan2 (y x : ℝ) : ℝ :=
  if 0 < x then Real.arctan (y / x)
  else if x < 0 ∧ 0 ≤ y then Real.arctan (y / x) + Real.pi
  else if x < 0 ∧ y < 0 then Real.arctan (y / x) - Real.pi
  else if x = 0 ∧ 0 < y then Real.pi / 2
  else if x = 0 ∧ y < 0 then -(Real.pi / 2)
  else 0

/-- Timestamp of `feature_history_.front()`, i.e. of the most recent
feature; 0 for an empty history (as `Obstacle::timestamp()` returns). -/
def frontTimestamp : List Feature → ℝ
  | [] => 0
  | f :: _ => f.timestamp

/-- `Obstacle::SetId`.  The C++ mutates the member `id_` and the
out-parameter `*feature`; here both are threaded explicitly, and the
result is `(error code, new id_, new feature)`.  Note the first-bind
branch (`id_ < 0`) sets only the member, not the feature's id field. -/
def SetId (po : PerceptionObstacle) (id_ : Int) (feature : Feature) :
    ErrorCode × Int × Feature :=
  match po.id with
  | none => (ErrorCode.PREDICTION_ERROR, id_, feature)
  | some id =>
    if id_ < 0 then
      (ErrorCode.OK, id, feature)
    else if id_ ≠ id then
      (ErrorCode.PREDICTION_ERROR, id_, feature)
    else
      (ErrorCode.OK, id_, { feature with id := some id })

/-- `Obstacle::SetType`: overwrite the member `type_` when the detection
carries a type, otherwise error. -/
def SetType (po : PerceptionObstacle) (type_ : ObstacleType) :
    ErrorCode × ObstacleType :=
  match po.type with
  | some t => (ErrorCode.OK, t)
  | none => (ErrorCode.PREDICTION_ERROR, type_)

/-- `Obstacle::SetTimestamp`: the feature timestamp is the detection's own
timestamp when present and positive, else the caller-supplied ingestion
timestamp. -/
def SetTimestamp (po : PerceptionObstacle) (timestamp : ℝ)
    (feature : Feature) : Feature :=
  let ts :=
    match po.timestamp with
    | some t => if 0 < t then t else timestamp
    | none => timestamp
  { feature with timestamp := ts }

/-- `Obstacle::SetPosition`: each coordinate independently defaults to 0
when its sub-field (or the whole position message) is absent. -/
def SetPosition (po : PerceptionObstacle) (feature : Feature) : Feature :=
  let px :=
    match po.position with
    | none => (0 : ℝ)
    | some p => match p.x with | none => 0 | some a => a
  let py :=
    match po.position with
    | none => (0 : ℝ)
    | some p => match p.y with | none => 0 | some a => a
  let pz :=
    match po.position with
    | none => (0 : ℝ)
    | some p => match p.z with | none => 0 | some a => a
  { feature with position_x := px, position_y := py, position_z := pz }

/-- `Obstacle::SetVelocity`: per-axis defaulting to 0, then
`speed = hypot(hypot(vx, vy), vz)` and `velocity_heading = atan2(vy, vx)`. -/
def SetVelocity (po : PerceptionObstacle) (feature : Feature) : Feature :=
  let vx :=
    match po.velocity with
    | none => (0 : ℝ)
    | some v => match v.x with | none => 0 | some a => a
  let vy :=
    match po.velocity with
    | none => (0 : ℝ)
    | some v => match v.y with | none => 0 | some a => a
  let vz :=
    match po.velocity with
    | none => (0 : ℝ)
    | some v => match v.z with | none => 0 | some a => a
  { feature with
      velocity_x := vx
      velocity_y := vy
      velocity_z := vz
      velocity_heading := atan2 vy vx
      speed := hypot (hypot vx vy) vz }

/-- `Obstacle::SetAcceleration`: zero acceleration when the history is
empty or the tolerant comparison does not put the candidate timestamp
strictly after the front feature's; otherwise the per-axis damped, clamped
finite difference of velocity.  `acc` is the hypot-chain magnitude. -/
def SetAcceleration (min_acc max_acc : ℝ) (hist : List Feature)
    (feature : Feature) : Feature :=
  let a : ℝ × ℝ × ℝ :=
    match hist with
    | [] => (0, 0, 0)
    | prev :: _ =>
      if DoubleCompare feature.timestamp prev.timestamp kEpsilon = 1 then
        let damping_x := Damp feature.velocity_x 0.001
        let damping_y := Damp feature.velocity_y 0.001
        let damping_z := Damp feature.velocity_z 0.001
        let acc_x :=
          (feature.velocity_x - prev.velocity_x) /
            (feature.timestamp - prev.timestamp)
        let acc_y :=
          (feature.velocity_y - prev.velocity_y) /
            (feature.timestamp - prev.timestamp)
        let acc_z :=
          (feature.velocity_z - prev.velocity_z) /
            (feature.timestamp - prev.timestamp)
        (Clamp (acc_x * damping_x) min_acc max_acc,
         Clamp (acc_y * damping_y) min_acc max_acc,
         Clamp (acc_z * damping_z) min_acc max_acc)
      else (0, 0, 0)
  { feature with
      acc_x := a.1
      acc_y := a.2.1
      acc_z := a.2.2
      acc := hypot (hypot a.1 a.2.1) a.2.2 }

/-- `Obstacle::SetTheta`: defaults to 0 when absent. -/
def SetTheta (po : PerceptionObstacle) (feature : Feature) : Feature :=
  let theta :=
    match po.theta with
    | some t => t
    | none => (0 : ℝ)
  { feature with theta := theta }

/-- `Obstacle::Insert`, with the internal outcome exposed as a ghost
Boolean (`true` iff the pipeline ran to completion; the C++ returns void).
The freshness gate compares the raw caller-supplied `timestamp` with the
front feature's timestamp.  On an early return the entity keeps whatever
mutations the already-executed setters made (`SetId` may have bound
`id_`).  The fully-built feature is a local that the source, as written,
never pushes into `feature_history_`, so the history is returned
unchanged even on the accepted path. -/
def InsertR {κ : Type} (min_acc max_acc : ℝ) (ob : Obstacle κ)
    (po : PerceptionObstacle) (timestamp : ℝ) : Obstacle κ × Bool :=
  if 0 < ob.feature_history.length ∧
      timestamp ≤ frontTimestamp ob.feature_history then
    (ob, false)
  else
    match SetId po ob.id_ Feature.default with
    | (ErrorCode.PREDICTION_ERROR, id1, _) => ({ ob with id_ := id1 }, false)
    | (ErrorCode.OK, id1, f1) =>
      let ob1 := { ob with id_ := id1 }
      match SetType po ob1.type_ with
      | (ErrorCode.PREDICTION_ERROR, ty1) => ({ ob1 with type_ := ty1 }, false)
      | (ErrorCode.OK, ty1) =>
        let ob2 := { ob1 with type_ := ty1 }
        let f2 := SetTimestamp po timestamp f1
        let f3 := SetPosition po f2
        let f4 := SetVelocity po f3
        let f5 := SetAcceleration min_acc max_acc ob2.feature_history f4
        let _f6 := SetTheta po f5
        (ob2, true)

/-- `Obstacle::Insert` as the caller sees it: void return, only the state. -/
def Insert {κ : Type} (min_acc max_acc : ℝ) (ob : Obstacle κ)
    (po : PerceptionObstacle) (timestamp : ℝ) : Obstacle κ :=
  (InsertR min_acc max_acc ob po timestamp).1

/-- `Obstacle::id()`. -/
def Obstacle.id {κ : Type} (ob : Obstacle κ) : Int := ob.id_

/-- `Obstacle::timestamp()`: front timestamp, or 0 when history is empty. -/
def Obstacle.timestamp {κ : Type} (ob : Obstacle κ) : ℝ :=
  frontTimestamp ob.feature_history

/-- `Obstacle::history_size()`. -/
def Obstacle.history_size {κ : Type} (ob : Obstacle κ) : Nat :=
  ob.feature_history.length

/-- `Obstacle::feature(i)`: `none` models the fatal `CHECK(i < size)`
failing; `some` is the returned reference. -/
def Obstacle.feature {κ : Type} (ob : Obstacle κ) (i : Nat) :
    Option Feature :=
  ob.feature_history.get? i

/-- `Obstacle::mutable_feature(i)`: same precondition and lookup as
`feature(i)`. -/
def Obstacle.mutable_feature {κ : Type} (ob : Obstacle κ) (i : Nat) :
    Option Feature :=
  ob.feature_history.get? i

/-- `Obstacle::latest_feature()`: `none` models the fatal
`CHECK(size > 0)` failing. -/
def Obstacle.latest_feature {κ : Type} (ob : Obstacle κ) : Option Feature :=
  match ob.feature_history with
  | [] => none
  | f :: _ => some f

/-- `Obstacle::mutable_latest_feature()`. -/
def Obstacle.mutable_latest_feature {κ : Type} (ob : Obstacle κ) :
    Option Feature :=
  match ob.feature_history with
  | [] => none
  | f :: _ => some f

/-- `Obstacle::kf_lane_tracker(lane_id)`: `none` models the fatal
`CHECK(find != end)` failing on an absent key. -/
def Obstacle.kf_lane_tracker {κ : Type} (ob : Obstacle κ)
    (lane_id : String) : Option κ :=
  ob.kf_lane_tracker_map.lookup lane_id

/-! Sample states and detections used by the concrete theorems. -/

/-- A detection carrying a valid id and type and nothing else. -/
def poValid : PerceptionObstacle :=
  ⟨some 7, some ObstacleType.VEHICLE, none, none, none, none⟩

/-- A detection carrying an id but no type. -/
def poNoType : PerceptionObstacle :=
  ⟨some 5, none, none, none, none, none⟩

/-- A detection with matching id 1, a type, and its own timestamp 5. -/
def poDetTs : PerceptionObstacle :=
  ⟨some 1, some ObstacleType.VEHICLE, some 5, none, none, none⟩

/-- A feature whose timestamp is 10 (other fields defaulted). -/
def featT10 : Feature :=
  { Feature.default with timestamp := 10 }

/-- A bound entity (id 1, type PEDESTRIAN) whose front feature has
timestamp 10. -/
def obBound : Obstacle Unit :=
  { Obstacle.fresh Unit with
      id_ := 1
      type_ := ObstacleType.PEDESTRIAN
      feature_history := [featT10] }

/-! Theorems settling the claims. -/

/-- Claim C1: the claim says each successful ingestion prepends the
fully-built Feature to `feature_history`, so n valid inserts give
`history_size() = n`.  The code evaluates otherwise: a valid detection
(id 7, type VEHICLE, fresh entity, timestamp 1) runs the whole pipeline to
completion (ghost outcome `true`) yet the history stays empty —
`Obstacle::Insert` builds the Feature in a local and never pushes it into
`feature_history_`. -/
theorem insert_accepts_but_never_appends :
    (InsertR (-4) 4 (Obstacle.fresh Unit) poValid 1).2 = true ∧
    ((InsertR (-4) 4 (Obstacle.fresh Unit) poValid 1).1).history_size = 0 := by
  constructor <;>
    simp [InsertR, SetId, SetType, Obstacle.fresh, poValid,
      Obstacle.history_size, Feature.default]

/-- Claim C2, counterexample: the claim says an unbound entity whose
detection carries an id but no type remains unbound after the aborted
ingestion; in the code `SetId` binds `id_` before `SetType` rejects, so
the fresh entity (id −1) ends the aborted call bound to 5. -/
theorem insert_missing_type_binds_id :
    (Insert (-4) 4 (Obstacle.fresh Unit) poNoType 1).id_ = 5 ∧
    (Obstacle.fresh Unit).id_ = -1 := by
  constructor <;>
    simp [Insert, InsertR, SetId, SetType, Obstacle.fresh, poNoType,
      Feature.default]

/-- Claim C2, amended: aborts at the freshness gate, at a missing
detection id, or at a mismatched id leave the entire entity state
unchanged; an abort at a missing type leaves `feature_history` and `type_`
unchanged (but may have bound a previously-unbound id, which is why the
claim as stated fails). -/
theorem insert_abort_state_preservation {κ : Type} (min_acc max_acc : ℝ)
    (ob : Obstacle κ) (po : PerceptionObstacle) (ts : ℝ) :
    (po.id = none → InsertR min_acc max_acc ob po ts = (ob, false)) ∧
    (∀ j, po.id = some j → 0 ≤ ob.id_ → ob.id_ ≠ j →
      InsertR min_acc max_acc ob po ts = (ob, false)) ∧
    (0 < ob.feature_history.length →
      ts ≤ frontTimestamp ob.feature_history →
      InsertR min_acc max_acc ob po ts = (ob, false)) ∧
    (po.type = none →
      (InsertR min_acc max_acc ob po ts).1.feature_history =
        ob.feature_history ∧
      (InsertR min_acc max_acc ob po ts).1.type_ = ob.type_ ∧
      (InsertR min_acc max_acc ob po ts).2 = false) := by
  by_cases hgate : 0 < ob.feature_history.length ∧
      ts ≤ frontTimestamp ob.feature_history
  · refine ⟨?_, ?_, ?_, ?_⟩ <;> intros <;> simp [InsertR, hgate]
  · refine ⟨?_, ?_, ?_, ?_⟩
    · intro hid
      simp [InsertR, hgate, SetId, hid]
    · intro j hid h0 hne
      have hlt : ¬ ob.id_ < 0 := not_lt.mpr h0
      simp [InsertR, hgate, SetId, hid, hlt, hne]
    · intro h1 h2
      exact absurd ⟨h1, h2⟩ hgate
    · intro hty
      rcases hid : po.id with _ | j
      · simp [InsertR, hgate, SetId, hid]
      · by_cases hlt : ob.id_ < 0
        · simp [InsertR, hgate, SetId, hid, hlt, SetType, hty]
        · by_cases hne : ob.id_ ≠ j
          · simp [InsertR, hgate, SetId, hid, hlt, hne]
          · simp [InsertR, hgate, SetId, hid, hlt, hne, SetType, hty]

/-- Claim C3, counterexample: the claim says the id is assigned exactly
once, on the first successful ingestion; in the code the ingestion of a
detection with id 5 and no type is not successful (ghost outcome `false`)
yet it assigns the id. -/
theorem unsuccessful_ingestion_assigns_id :
    (InsertR (-4) 4 (Obstacle.fresh Unit) poNoType 1).2 = false ∧
    (InsertR (-4) 4 (Obstacle.fresh Unit) poNoType 1).1.id_ = 5 ∧
    (Obstacle.fresh Unit).id_ = -1 := by
  refine ⟨?_, ?_, ?_⟩ <;>
    simp [InsertR, SetId, SetType, Obstacle.fresh, poNoType, Feature.default]

/-- Claim C3, amended: the id is assigned on the first gate-passing
ingestion whose detection carries an id (even one that later aborts on a
missing type); once bound (nonnegative), no ingestion changes it, and a
later detection with a different id is rejected with no state change. -/
theorem id_bound_once_then_immutable {κ : Type} (min_acc max_acc : ℝ)
    (ob : Obstacle κ) (po : PerceptionObstacle) (ts : ℝ) :
    (0 ≤ ob.id_ → (Insert min_acc max_acc ob po ts).id_ = ob.id_) ∧
    (∀ j, po.id = some j → 0 ≤ ob.id_ → ob.id_ ≠ j →
      Insert min_acc max_acc ob po ts = ob) ∧
    (∀ j, po.id = some j → ob.id_ < 0 →
      ¬(0 < ob.feature_history.length ∧
        ts ≤ frontTimestamp ob.feature_history) →
      (Insert min_acc max_acc ob po ts).id_ = j) := by
  by_cases hgate : 0 < ob.feature_history.length ∧
      ts ≤ frontTimestamp ob.feature_history
  · refine ⟨?_, ?_, ?_⟩ <;> intros <;> simp_all [Insert, InsertR, hgate]
  · refine ⟨?_, ?_, ?_⟩
    · intro h0
      have hlt : ¬ ob.id_ < 0 := not_lt.mpr h0
      rcases hid : po.id with _ | j
      · simp [Insert, InsertR, hgate, SetId, hid]
      · by_cases hne : ob.id_ ≠ j
        · simp [Insert, InsertR, hgate, SetId, hid, hlt, hne]
        · rcases hty : po.type with _ | t <;>
            simp [Insert, InsertR, hgate, SetId, hid, hlt, hne, SetType, hty]
    · intro j hid h0 hne
      have hlt : ¬ ob.id_ < 0 := not_lt.mpr h0
      simp [Insert, InsertR, hgate, SetId, hid, hlt, hne]
    · intro j hid hlt _
      rcases hty : po.type with _ | t <;>
        simp [Insert, InsertR, hgate, SetId, hid, hlt, SetType, hty]

/-- Claim C4: the claim says the first-bind branch and the match branch of
identity resolution set the Feature's id field identically; in the code
only the match branch calls `feature->set_id`.  At detection id 7: with an
unbound entity (id −1) `SetId` returns OK, binds the entity to 7 and
leaves the feature id unset; with the entity already bound to 7 it sets
the feature id to 7. -/
theorem first_bind_leaves_feature_id_unset :
    (SetId poValid (-1) Feature.default).1 = ErrorCode.OK ∧
    (SetId poValid (-1) Feature.default).2.1 = 7 ∧
    (SetId poValid (-1) Feature.default).2.2.id = none ∧
    (SetId poValid 7 Feature.default).2.2.id = some 7 := by
  refine ⟨?_, ?_, ?_, ?_⟩ <;> simp [SetId, poValid, Feature.default]

/-- Claim C5, counterexample: the claim says the freshness gate compares
the resolved candidate timestamp (detection timestamp 5, since it is
present and positive) with the front timestamp 10 and must abort with no
mutation; the code gates on the raw ingestion timestamp 11 instead,
proceeds, and overwrites the entity type. -/
theorem gate_ignores_resolved_candidate :
    obBound.feature_history ≠ [] ∧
    (SetTimestamp poDetTs 11 Feature.default).timestamp ≤
      frontTimestamp obBound.feature_history ∧
    (Insert (-4) 4 obBound poDetTs 11).type_ = ObstacleType.VEHICLE ∧
    obBound.type_ = ObstacleType.PEDESTRIAN := by
  refine ⟨?_, ?_, ?_, ?_⟩ <;>
    norm_num [Insert, InsertR, SetId, SetType, SetTimestamp, frontTimestamp,
      obBound, poDetTs, featT10, Obstacle.fresh, Feature.default]

/-- Claim C5, amended: the freshness gate compares the caller-supplied
ingestion timestamp (not the resolved candidate) against the front
feature's timestamp: when history is non-empty and the ingestion timestamp
is ≤ the front's, the call aborts with no mutation; otherwise the gate
passes and a detection with matching id and a type is accepted, whatever
its own timestamp field holds (that field is only resolved later, in
`SetTimestamp`). -/
theorem freshness_gate_uses_ingestion_timestamp {κ : Type}
    (min_acc max_acc ts : ℝ) (ob : Obstacle κ) (po : PerceptionObstacle)
    (j : Int) (ty : ObstacleType)
    (hid : po.id = some j) (hty : po.type = some ty)
    (hmatch : ob.id_ < 0 ∨ ob.id_ = j) :
    ((InsertR min_acc max_acc ob po ts).2 = true ↔
      ¬(0 < ob.feature_history.length ∧
        ts ≤ frontTimestamp ob.feature_history)) ∧
    ((0 < ob.feature_history.length ∧
        ts ≤ frontTimestamp ob.feature_history) →
      InsertR min_acc max_acc ob po ts = (ob, false)) := by
  by_cases hgate : 0 < ob.feature_history.length ∧
      ts ≤ frontTimestamp ob.feature_history
  · constructor
    · simp [InsertR, hgate]
    · intro _
      simp [InsertR, hgate]
  · constructor
    · rcases hmatch with hlt | heq
      · simp [InsertR, hgate, SetId, hid, hlt, SetType, hty]
      · rw [← heq] at hid
        by_cases hlt : ob.id_ < 0 <;>
          simp [InsertR, hgate, SetId, hid, hlt, SetType, hty]
    · intro h
      exact absurd h hgate

/-- A detection carrying no id at all. -/
def poNoId : PerceptionObstacle :=
  ⟨none, some ObstacleType.VEHICLE, none, none, none, none⟩

/-- A detection whose id 2 mismatches the bound entity id 1. -/
def poMismatch : PerceptionObstacle :=
  ⟨some 2, some ObstacleType.VEHICLE, none, none, none, none⟩

/-- Claim C2 (amended), witness: a missing-id ingestion into the fresh
entity is a no-op, and a missing-type ingestion leaves history and type
unchanged. -/
theorem insert_abort_state_preservation_witness :
    InsertR (-4) 4 (Obstacle.fresh Unit) poNoId 1 =
      (Obstacle.fresh Unit, false) ∧
    (InsertR (-4) 4 (Obstacle.fresh Unit) poNoType 1).1.feature_history =
      (Obstacle.fresh Unit).feature_history ∧
    (InsertR (-4) 4 (Obstacle.fresh Unit) poNoType 1).1.type_ =
      (Obstacle.fresh Unit).type_ := by
  refine ⟨?_, ?_, ?_⟩
  · exact (insert_abort_state_preservation (-4) 4 (Obstacle.fresh Unit)
      poNoId 1).1 rfl
  · exact ((insert_abort_state_preservation (-4) 4 (Obstacle.fresh Unit)
      poNoType 1).2.2.2 rfl).1
  · exact ((insert_abort_state_preservation (-4) 4 (Obstacle.fresh Unit)
      poNoType 1).2.2.2 rfl).2.1

/-- Claim C3 (amended), witness: the entity bound to id 1 keeps its id
under any ingestion of the mismatching detection (id 2), and that
ingestion is a complete no-op. -/
theorem id_bound_once_then_immutable_witness :
    (Insert (-4) 4 obBound poMismatch 11).id_ = obBound.id_ ∧
    Insert (-4) 4 obBound poMismatch 11 = obBound := by
  constructor
  · exact (id_bound_once_then_immutable (-4) 4 obBound poMismatch 11).1
      (by norm_num [obBound, Obstacle.fresh])
  · exact (id_bound_once_then_immutable (-4) 4 obBound poMismatch 11).2.1 2
      rfl (by norm_num [obBound, Obstacle.fresh])
      (by norm_num [obBound, Obstacle.fresh])

/-- Claim C5 (amended), witness: at ingestion timestamp 5 against a front
timestamp of 10, the valid matching detection is rejected by the gate with
no mutation. -/
theorem freshness_gate_uses_ingestion_timestamp_witness :
    InsertR (-4) 4 obBound poDetTs 5 = (obBound, false) := by
  refine (freshness_gate_uses_ingestion_timestamp (-4) 4 5 obBound poDetTs
    1 ObstacleType.VEHICLE rfl rfl ?_).2 ⟨?_, ?_⟩
  · right
    rfl
  · simp [obBound, Obstacle.fresh]
  · norm_num [obBound, Obstacle.fresh, frontTimestamp, featT10,
      Feature.default]

/-- The chained `std::hypot` is the three-argument Euclidean norm. -/
lemma hypot_hypot (a b c : ℝ) :
    hypot (hypot a b) c = Real.sqrt (a ^ 2 + b ^ 2 + c ^ 2) := by
  unfold hypot
  rw [Real.sq_sqrt (by positivity)]

/-- `Clamp` lands in the interval when the bounds are ordered. -/
lemma Clamp_mem_Icc {lo hi : ℝ} (h : lo ≤ hi) (x : ℝ) :
    Clamp x lo hi ∈ Set.Icc lo hi := by
  unfold Clamp
  split_ifs with hx hy
  · exact Set.mem_Icc.mpr ⟨le_refl lo, h⟩
  · exact Set.mem_Icc.mpr ⟨h, le_refl hi⟩
  · exact Set.mem_Icc.mpr ⟨le_of_not_lt hx, le_of_not_lt hy⟩

/-- Claim C6: the acceleration estimator outputs (0,0,0) when history is
empty or the candidate timestamp is not tolerant-greater than the front's;
otherwise each axis is the clamped, sigmoid-damped finite difference
`clamp((Δv/Δt) · 1/(1+exp(1/(|v|+0.001))), min_acc, max_acc)`; and the
stored magnitude is the Euclidean norm of the three components. -/
theorem acceleration_estimator_formula (min_acc max_acc : ℝ)
    (hist : List Feature) (f : Feature) :
    (hist = [] →
      (SetAcceleration min_acc max_acc hist f).acc_x = 0 ∧
      (SetAcceleration min_acc max_acc hist f).acc_y = 0 ∧
      (SetAcceleration min_acc max_acc hist f).acc_z = 0) ∧
    (∀ prev rest, hist = prev :: rest →
      (DoubleCompare f.timestamp prev.timestamp kEpsilon ≠ 1 →
        (SetAcceleration min_acc max_acc hist f).acc_x = 0 ∧
        (SetAcceleration min_acc max_acc hist f).acc_y = 0 ∧
        (SetAcceleration min_acc max_acc hist f).acc_z = 0) ∧
      (DoubleCompare f.timestamp prev.timestamp kEpsilon = 1 →
        (SetAcceleration min_acc max_acc hist f).acc_x =
          Clamp ((f.velocity_x - prev.velocity_x) /
              (f.timestamp - prev.timestamp) *
            (1 / (1 + Real.exp (1 / (|f.velocity_x| + 0.001)))))
            min_acc max_acc ∧
        (SetAcceleration min_acc max_acc hist f).acc_y =
          Clamp ((f.velocity_y - prev.velocity_y) /
              (f.timestamp - prev.timestamp) *
            (1 / (1 + Real.exp (1 / (|f.velocity_y| + 0.001)))))
            min_acc max_acc ∧
        (SetAcceleration min_acc max_acc hist f).acc_z =
          Clamp ((f.velocity_z - prev.velocity_z) /
              (f.timestamp - prev.timestamp) *
            (1 / (1 + Real.exp (1 / (|f.velocity_z| + 0.001)))))
            min_acc max_acc)) ∧
    (SetAcceleration min_acc max_acc hist f).acc =
      Real.sqrt ((SetAcceleration min_acc max_acc hist f).acc_x ^ 2 +
        (SetAcceleration min_acc max_acc hist f).acc_y ^ 2 +
        (SetAcceleration min_acc max_acc hist f).acc_z ^ 2) := by
  refine ⟨?_, ?_, ?_⟩
  · intro h
    subst h
    simp [SetAcceleration]
  · intro prev rest h
    subst h
    constructor
    · intro hne
      simp [SetAcceleration, hne]
    · intro heq
      simp [SetAcceleration, heq, Damp]
  · cases hist with
    | nil => simp [SetAcceleration, hypot_hypot]
    | cons prev rest =>
      by_cases hc : DoubleCompare f.timestamp prev.timestamp kEpsilon = 1 <;>
        simp [SetAcceleration, hc, hypot_hypot]

/-- Claim C6, witness: at the empty history the output is zero, and on a
concrete two-sample history (previous velocity 0 at time 1, candidate
velocity 2 at time 2) the x axis is the damped clamped finite
difference. -/
theorem acceleration_estimator_formula_witness :
    (SetAcceleration (-4) 4 [] Feature.default).acc_x = 0 ∧
    (SetAcceleration (-4) 4 [{ Feature.default with timestamp := 1 }]
        { Feature.default with timestamp := 2, velocity_x := 2 }).acc_x =
      Clamp ((2 - 0) / (2 - 1) * (1 / (1 + Real.exp (1 / (|(2:ℝ)| + 0.001)))))
        (-4) 4 := by
  constructor
  · exact (acceleration_estimator_formula (-4) 4 [] Feature.default).1 rfl |>.1
  · have h := ((acceleration_estimator_formula (-4) 4
      [{ Feature.default with timestamp := 1 }]
      { Feature.default with timestamp := 2, velocity_x := 2 }).2.1
      { Feature.default with timestamp := 1 } [] rfl).2
    have hc : DoubleCompare
        ({ Feature.default with timestamp := 2, velocity_x := 2 } :
          Feature).timestamp
        ({ Feature.default with timestamp := 1 } : Feature).timestamp
        kEpsilon = 1 := by
      norm_num [DoubleCompare, kEpsilon, Feature.default]
    have h2 := (h hc).1
    simpa [Feature.default] using h2

/-- Claim C7: with the configured clamp interval containing zero (as any
sane configuration has, since the zero output is used for the empty and
non-fresh cases), every per-axis acceleration the estimator stores lies in
`[min_acc, max_acc]`, for every history and candidate feature. -/
theorem acceleration_within_bounds (min_acc max_acc : ℝ)
    (h1 : min_acc ≤ 0) (h2 : 0 ≤ max_acc)
    (hist : List Feature) (f : Feature) :
    (SetAcceleration min_acc max_acc hist f).acc_x ∈
      Set.Icc min_acc max_acc ∧
    (SetAcceleration min_acc max_acc hist f).acc_y ∈
      Set.Icc min_acc max_acc ∧
    (SetAcceleration min_acc max_acc hist f).acc_z ∈
      Set.Icc min_acc max_acc := by
  have hlohi : min_acc ≤ max_acc := h1.trans h2
  have hzero : (0:ℝ) ∈ Set.Icc min_acc max_acc := Set.mem_Icc.mpr ⟨h1, h2⟩
  cases hist with
  | nil =>
    refine ⟨?_, ?_, ?_⟩ <;> simpa [SetAcceleration] using hzero
  | cons prev rest =>
    by_cases hc : DoubleCompare f.timestamp prev.timestamp kEpsilon = 1
    · refine ⟨?_, ?_, ?_⟩ <;>
        · simp only [SetAcceleration, hc, if_true]
          exact Clamp_mem_Icc hlohi _
    · refine ⟨?_, ?_, ?_⟩ <;>
        · simp only [SetAcceleration, hc, if_false]
          simpa using hzero

/-- Claim C7, witness: concrete bounds −4 ≤ 0 ≤ 4, empty history,
default candidate feature. -/
theorem acceleration_within_bounds_witness :
    (SetAcceleration (-4) 4 [] Feature.default).acc_x ∈
      Set.Icc (-4 : ℝ) 4 ∧
    (SetAcceleration (-4) 4 [] Feature.default).acc_y ∈
      Set.Icc (-4 : ℝ) 4 ∧
    (SetAcceleration (-4) 4 [] Feature.default).acc_z ∈
      Set.Icc (-4 : ℝ) 4 :=
  acceleration_within_bounds (-4) 4 (by norm_num) (by norm_num) []
    Feature.default

/-- Claim C8: a freshly constructed entity has `history_size() = 0`; the
unchecked accessors hit the fatal branch (modelled `none`) exactly when
their precondition is violated — `feature(i)`/`mutable_feature(i)` when
`i ≥ history_size()`, the latest-feature pair when history is empty, the
lane-tracker lookup when the lane id is absent — and under the
precondition they return the requested element. -/
theorem accessor_fatal_contracts :
    (Obstacle.fresh Unit).history_size = 0 ∧
    (∀ (κ : Type) (ob : Obstacle κ) (i : Nat), ob.history_size ≤ i →
      ob.feature i = none ∧ ob.mutable_feature i = none) ∧
    (∀ (κ : Type) (ob : Obstacle κ) (i : Nat) (h : i < ob.history_size),
      ob.feature i = some (ob.feature_history.get ⟨i, h⟩) ∧
      ob.mutable_feature i = some (ob.feature_history.get ⟨i, h⟩)) ∧
    (∀ (κ : Type) (ob : Obstacle κ), ob.history_size = 0 →
      ob.latest_feature = none ∧ ob.mutable_latest_feature = none) ∧
    (∀ (κ : Type) (ob : Obstacle κ) (fr : Feature) (rest : List Feature),
      ob.feature_history = fr :: rest →
      ob.latest_feature = some fr ∧ ob.mutable_latest_feature = some fr) ∧
    (∀ (κ : Type) (ob : Obstacle κ) (lane_id : String),
      ob.kf_lane_tracker_map.lookup lane_id = none →
      ob.kf_lane_tracker lane_id = none) ∧
    (∀ (κ : Type) (ob : Obstacle κ) (lane_id : String) (v : κ),
      ob.kf_lane_tracker_map.lookup lane_id = some v →
      ob.kf_lane_tracker lane_id = some v) := by
  refine ⟨rfl, ?_, ?_, ?_, ?_, ?_, ?_⟩
  · intro κ ob i h
    exact ⟨List.get?_eq_none.mpr h, List.get?_eq_none.mpr h⟩
  · intro κ ob i h
    exact ⟨List.get?_eq_get h, List.get?_eq_get h⟩
  · intro κ ob h
    have : ob.feature_history = [] := List.length_eq_zero.mp h
    constructor <;> simp [Obstacle.latest_feature,
      Obstacle.mutable_latest_feature, this]
  · intro κ ob fr rest h
    constructor <;> simp [Obstacle.latest_feature,
      Obstacle.mutable_latest_feature, h]
  · intro κ ob lane_id h
    exact h
  · intro κ ob lane_id v h
    exact h

/-- Claim C8, witness: the fresh entity has empty history, `feature 0` and
`latest_feature` fail fatally on it, the lookup of lane "L" fails fatally
on an empty lane-tracker map, and on an entity holding one feature and one
lane entry the accessors return them. -/
theorem accessor_fatal_contracts_witness :
    (Obstacle.fresh Unit).history_size = 0 ∧
    (Obstacle.fresh Unit).feature 0 = none ∧
    (Obstacle.fresh Unit).latest_feature = none ∧
    (Obstacle.fresh Unit).kf_lane_tracker "L" = none ∧
    obBound.feature 0 = some featT10 ∧
    obBound.latest_feature = some featT10 := by
  refine ⟨accessor_fatal_contracts.1,
    (accessor_fatal_contracts.2.1 Unit (Obstacle.fresh Unit) 0
      (Nat.le_refl 0)).1,
    (accessor_fatal_contracts.2.2.2.1 Unit (Obstacle.fresh Unit) rfl).1,
    accessor_fatal_contracts.2.2.2.2.2.1 Unit (Obstacle.fresh Unit) "L" rfl,
    ?_, ?_⟩
  · have h := (accessor_fatal_contracts.2.2.1 Unit obBound 0
      (by simp [obBound, Obstacle.fresh, Obstacle.history_size])).1
    simpa [obBound, Obstacle.fresh] using h
  · exact (accessor_fatal_contracts.2.2.2.2.1 Unit obBound featT10 []
      rfl).1

/-- Claim C10, counterexample: the claim says each damped per-axis
acceleration has magnitude strictly less than half the raw estimate's;
when the raw finite difference is 0 (equal consecutive velocities) both
sides are 0 and the strict inequality fails. -/
theorem damp_zero_raw_not_strict :
    ¬ |(0:ℝ) * Damp 1 0.001| < |(0:ℝ)| / 2 := by
  simp

/-- Claim C10, amended: `Damp(x, 0.001)` lies strictly between 0 and 1/2
for every real x; consequently a damped value has magnitude at most half
the raw value's, strictly less whenever the raw value is nonzero. -/
theorem damp_strictly_between_zero_and_half (x raw : ℝ) :
    0 < Damp x 0.001 ∧ Damp x 0.001 < 1 / 2 ∧
    |raw * Damp x 0.001| ≤ |raw| / 2 ∧
    (raw ≠ 0 → |raw * Damp x 0.001| < |raw| / 2) := by
  have hx : (0:ℝ) < |x| + 0.001 := by positivity
  have ht : (0:ℝ) < 1 / (|x| + 0.001) := by positivity
  have hexp : 1 < Real.exp (1 / (|x| + 0.001)) := Real.one_lt_exp_iff.mpr ht
  have hdenpos : (0:ℝ) < 1 + Real.exp (1 / (|x| + 0.001)) := by linarith
  have h1 : 0 < Damp x 0.001 := by
    unfold Damp
    positivity
  have h2 : Damp x 0.001 < 1 / 2 := by
    unfold Damp
    rw [div_lt_div_iff₀ hdenpos (by norm_num)]
    linarith
  have habs : |raw * Damp x 0.001| = |raw| * Damp x 0.001 := by
    rw [abs_mul, abs_of_pos h1]
  refine ⟨h1, h2, ?_, ?_⟩
  · rw [habs]
    have := mul_le_mul_of_nonneg_left h2.le (abs_nonneg raw)
    linarith
  · intro hr
    rw [habs]
    have := mul_lt_mul_of_pos_left h2 (abs_pos.mpr hr)
    linarith

/-- Claim C10, witness: at x = 1 and raw = 2 the damping factor is in
(0, 1/2) and the damped value is strictly below half the raw value. -/
theorem damp_strictly_between_zero_and_half_witness :
    0 < Damp 1 0.001 ∧ Damp 1 0.001 < 1 / 2 ∧
    |(2:ℝ) * Damp 1 0.001| < |(2:ℝ)| / 2 := by
  obtain ⟨a, b, _, d⟩ := damp_strictly_between_zero_and_half 1 2
  exact ⟨a, b, d (by norm_num)⟩

end

end ApolloPrediction
